import Mathlib

/-
Shallow embedding of sentry_jira/jira.py (a JIRA REST client: response and
error wrappers, lazy authenticated session, request dispatcher, TTL read
cache), together with theorems settling the specification claims.

External libraries are modelled as follows:
  * simplejson `json.loads(text, object_pairs_hook=SortedDict)` is an
    abstract parameter `pj : JsonParser`; a parsed document is a `JsonValue`
    whose objects are ordered association lists (mirroring SortedDict, which
    preserves key insertion order).
  * `BeautifulStoneSoup` is total on strings (it never fails on any input);
    we model its output as a wrapper carrying the raw text.
  * a `requests` response is `HttpResponse` (body text plus status code);
    its Python truthiness is `Response.ok`, i.e. False exactly when
    400 <= status_code < 600 (`raise_for_status` raises), True otherwise.
-/

/-- Ordered JSON document: objects are association lists preserving key
insertion order, as produced by `object_pairs_hook=SortedDict`. Numeric
values are modelled as integers (no claim depends on float semantics). -/
inductive JsonValue where
  | null
  | bool (b : Bool)
  | num (n : Int)
  | str (s : String)
  | arr (elems : List JsonValue)
  | obj (pairs : List (String × JsonValue))
deriving Repr

/-- Abstract JSON parser: `some doc` when `json.loads` succeeds, `none` when
it raises `JSONDecodeError`/`ValueError`. -/
def JsonParser : Type := String → Option JsonValue

/-- Model of a `BeautifulStoneSoup` parse result (the library is lenient and
produces a tree for any input string). -/
structure SoupTree where
  raw_text : String
deriving Repr

/-- `BeautifulStoneSoup(text)`: total, never raises. -/
def BeautifulStoneSoup (text : String) : SoupTree := ⟨text⟩

/-- Python `s[:n]` on a string. -/
def strTake (n : Nat) (s : String) : String := String.mk (s.data.take n)

/-- A raw python-requests HTTP response: body text and status code. -/
structure HttpResponse where
  text : String
  status_code : Nat
deriving Repr

/-- Python truthiness of a `requests` response object (`Response.__bool__`
is `Response.ok`): False exactly when `400 <= status_code < 600`. -/
def HttpResponse.truthy (r : HttpResponse) : Bool :=
  decide (r.status_code < 400 ∨ 600 ≤ r.status_code)

/-- The body-parsing block shared verbatim by `JIRAError.__init__`
(jira.py lines 26-36) and `JIRAResponse.__init__` (lines 57-67):
empty body -> no parsed form; else try JSON; on JSON failure, if the first
five characters are "<?xml" parse as XML; otherwise no parsed form.
Returns the `(json, xml)` attribute pair. -/
def parseBody (pj : JsonParser) (response_text : String) :
    Option JsonValue × Option SoupTree :=
  if response_text = "" then (none, none)
  else
    match pj response_text with
    | some j => (some j, none)
    | none =>
      if strTake 5 response_text = "<?xml" then
        (none, some (BeautifulStoneSoup response_text))
      else (none, none)

/-- Which error class was constructed: `JIRAError` itself or its subclass
`JIRAUnauthorized`. -/
inductive ErrKind where
  | generic
  | unauthorized
deriving Repr, DecidableEq

/-- The class attribute `status_code`: `None` on `JIRAError`, `401` on
`JIRAUnauthorized`. -/
def ErrKind.classStatus : ErrKind → Option Nat
  | .generic => none
  | .unauthorized => some 401

/-- A constructed `JIRAError` / `JIRAUnauthorized` value: raw text, effective
status code (instance attribute if set, else the class attribute), best-effort
parsed body, and the Exception message (`response_text[:128]`). -/
structure JIRAError where
  kind : ErrKind
  text : String
  status_code : Option Nat
  json : Option JsonValue
  xml : Option SoupTree
  message : String
deriving Repr

/-- `JIRAError.__init__(self, response_text, status_code=None)` (and the
inherited `JIRAUnauthorized.__init__`): sets the instance `status_code` only
when the argument is not None (else the class attribute is read), parses the
body, and passes `response_text[:128]` to `Exception.__init__`. -/
def JIRAError.init (pj : JsonParser) (kind : ErrKind)
    (response_text : String) (status_code : Option Nat) : JIRAError :=
  let p := parseBody pj response_text
  ⟨kind, response_text,
   (match status_code with
    | some s => some s
    | none => kind.classStatus),
   p.1, p.2, strTake 128 response_text⟩

/-- `JIRAError.from_response(cls, response)`: `cls(response.text,
response.status_code)`. -/
def JIRAError.from_response (pj : JsonParser) (kind : ErrKind)
    (r : HttpResponse) : JIRAError :=
  JIRAError.init pj kind r.text (some r.status_code)

/-- A constructed `JIRAResponse` value. -/
structure JIRAResponse where
  text : String
  json : Option JsonValue
  xml : Option SoupTree
  status_code : Nat
deriving Repr

/-- `JIRAResponse.__init__(self, response_text, status_code)`. -/
def JIRAResponse.init (pj : JsonParser) (response_text : String)
    (status_code : Nat) : JIRAResponse :=
  let p := parseBody pj response_text
  ⟨response_text, p.1, p.2, status_code⟩

/-- `JIRAResponse.from_response(cls, response)`. -/
def JIRAResponse.from_response (pj : JsonParser) (r : HttpResponse) :
    JIRAResponse :=
  JIRAResponse.init pj r.text r.status_code

/-- Outcome of the transport layer inside `make_request`'s `try` block:
a `ConnectionError`, a `RequestException` (optionally carrying a response),
any other exception, or an HTTP response delivered to the status checks. -/
inductive TransportOutcome where
  | connectionError (msg : String)
  | requestError (response : Option HttpResponse)
  | otherError (msg : String)
  | httpResponse (r : HttpResponse)

/-- `JIRAClient.make_request` after URL resolution (jira.py lines 161-189),
as a function of the transport outcome: exception clauses map to raised
`JIRAError`s; a delivered response is checked for 401, then for a status
outside [200,300), and otherwise wrapped in a `JIRAResponse`.
`requestError` with an attached response first applies Python truthiness
(`if not resp:`) before inspecting the status code. -/
def make_request (pj : JsonParser) (t : TransportOutcome) :
    Except JIRAError JIRAResponse :=
  match t with
  | .connectionError msg => .error (JIRAError.init pj .generic msg none)
  | .requestError none =>
      .error (JIRAError.init pj .generic "Internal Error" none)
  | .requestError (some resp) =>
      if resp.truthy = false then
        .error (JIRAError.init pj .generic "Internal Error" none)
      else if resp.status_code = 401 then
        .error (JIRAError.from_response pj .unauthorized resp)
      else .error (JIRAError.from_response pj .generic resp)
  | .otherError _ =>
      .error (JIRAError.init pj .generic "Internal error" (some 500))
  | .httpResponse r =>
      if r.status_code = 401 then
        .error (JIRAError.from_response pj .unauthorized r)
      else if r.status_code < 200 ∨ 300 ≤ r.status_code then
        .error (JIRAError.from_response pj .generic r)
      else .ok (JIRAResponse.from_response pj r)

/-- A concrete parser that always fails, used to instantiate witnesses. -/
def pjNone : JsonParser := fun _ => none

/-- C1: for every transport-successful response handled by `make_request`,
status 401 fails with an Unauthorized error built from the response; any
other status outside [200,300) fails with a generic error built from the
response; a status in [200,300) never fails and yields a `JIRAResponse`
wrapping the body and status. -/
theorem C1_make_request_status_mapping (pj : JsonParser) (r : HttpResponse) :
    (r.status_code = 401 →
      ∃ e, make_request pj (.httpResponse r) = .error e ∧
        e.kind = .unauthorized ∧ e.text = r.text ∧ e.status_code = some 401) ∧
    (r.status_code ≠ 401 → (r.status_code < 200 ∨ 300 ≤ r.status_code) →
      ∃ e, make_request pj (.httpResponse r) = .error e ∧
        e.kind = .generic ∧ e.text = r.text ∧
        e.status_code = some r.status_code) ∧
    (200 ≤ r.status_code → r.status_code < 300 →
      ∃ resp, make_request pj (.httpResponse r) = .ok resp ∧
        resp.text = r.text ∧ resp.status_code = r.status_code) := by
  refine ⟨?_, ?_, ?_⟩
  · intro h
    refine ⟨JIRAError.from_response pj .unauthorized r, ?_, ?_, ?_, ?_⟩
    · simp [make_request, h]
    · rfl
    · rfl
    · simp [JIRAError.from_response, JIRAError.init, h]
  · intro h hout
    refine ⟨JIRAError.from_response pj .generic r, ?_, ?_, ?_, ?_⟩
    · simp [make_request, h, hout]
    · rfl
    · rfl
    · rfl
  · intro h1 h2
    refine ⟨JIRAResponse.from_response pj r, ?_, rfl, rfl⟩
    have h401 : r.status_code ≠ 401 := by omega
    have hout : ¬ (r.status_code < 200 ∨ 300 ≤ r.status_code) := by omega
    simp [make_request, h401, hout]

/-- Witness for C1 at concrete inputs: status 404 is neither 401 nor in
[200,300) and maps to a generic error carrying the body and status. -/
theorem C1_witness :
    ((404 : Nat) ≠ 401 ∧ ((404 : Nat) < 200 ∨ (300 : Nat) ≤ 404)) ∧
    ∃ e, make_request pjNone (.httpResponse ⟨"oops", 404⟩) = .error e ∧
      e.kind = .generic ∧ e.text = "oops" ∧ e.status_code = some 404 :=
  ⟨by decide,
   (C1_make_request_status_mapping pjNone ⟨"oops", 404⟩).2.1
     (by decide) (by decide)⟩

/-- C6: a connection-level failure (`ConnectionError`, no response obtained)
fails with a generic error whose message is built from the exception's
description (`unicode(e)`, truncated to 128 characters for the Exception
message) and whose status code is unset. -/
theorem C6_connection_error (pj : JsonParser) (msg : String) :
    ∃ e, make_request pj (.connectionError msg) = .error e ∧
      e.kind = .generic ∧ e.text = msg ∧ e.status_code = none ∧
      e.message = strTake 128 msg := by
  exact ⟨JIRAError.init pj .generic msg none, rfl, rfl, rfl, rfl, rfl⟩

/-- C9: the error message passed to `Exception.__init__` is exactly
`response_text[:128]`: the first 128 characters, i.e. the whole text when it
has at most 128 characters. -/
theorem C9_error_message_truncation (pj : JsonParser) (kind : ErrKind)
    (text : String) (sc : Option Nat) :
    (JIRAError.init pj kind text sc).message = strTake 128 text ∧
    (text.data.length ≤ 128 → (JIRAError.init pj kind text sc).message = text) := by
  constructor
  · rfl
  · intro h
    show strTake 128 text = text
    unfold strTake
    rw [List.take_of_length_le h]

/-- Witness for C9: a 4-character body is returned whole as the message. -/
theorem C9_witness :
    ("oops" : String).data.length ≤ 128 ∧
    (JIRAError.init pjNone .generic "oops" none).message = "oops" :=
  ⟨by decide,
   (C9_error_message_truncation pjNone .generic "oops" none).2 (by decide)⟩

/-- C2: constructing a `JIRAResponse` or a `JIRAError` from body text and a
status code exposes the raw text, the status code, and exactly one parsed
form: none for an empty body; an ordered document (insertion-order-preserving
association lists) when JSON parsing succeeds; a parsed XML tree — never
none — when JSON parsing fails and the first five characters are `<?xml`;
none otherwise, with no exception raised. The same rule holds for both
types, which share the parsing block verbatim. -/
theorem C2_body_parsing (pj : JsonParser) (text : String) (status : Nat) :
    (JIRAResponse.init pj text status).text = text ∧
    (JIRAResponse.init pj text status).status_code = status ∧
    (JIRAError.init pj .generic text (some status)).text = text ∧
    (JIRAError.init pj .generic text (some status)).status_code = some status ∧
    (text = "" →
      (JIRAResponse.init pj text status).json = none ∧
      (JIRAResponse.init pj text status).xml = none ∧
      (JIRAError.init pj .generic text (some status)).json = none ∧
      (JIRAError.init pj .generic text (some status)).xml = none) ∧
    (∀ j, text ≠ "" → pj text = some j →
      (JIRAResponse.init pj text status).json = some j ∧
      (JIRAResponse.init pj text status).xml = none ∧
      (JIRAError.init pj .generic text (some status)).json = some j ∧
      (JIRAError.init pj .generic text (some status)).xml = none) ∧
    (text ≠ "" → pj text = none → strTake 5 text = "<?xml" →
      (JIRAResponse.init pj text status).json = none ∧
      (JIRAResponse.init pj text status).xml = some (BeautifulStoneSoup text) ∧
      (JIRAError.init pj .generic text (some status)).json = none ∧
      (JIRAError.init pj .generic text (some status)).xml
        = some (BeautifulStoneSoup text)) ∧
    (text ≠ "" → pj text = none → strTake 5 text ≠ "<?xml" →
      (JIRAResponse.init pj text status).json = none ∧
      (JIRAResponse.init pj text status).xml = none ∧
      (JIRAError.init pj .generic text (some status)).json = none ∧
      (JIRAError.init pj .generic text (some status)).xml = none) := by
  refine ⟨rfl, rfl, rfl, rfl, ?_, ?_, ?_, ?_⟩
  · intro h
    simp [JIRAResponse.init, JIRAError.init, parseBody, h]
  · intro j hne hj
    simp [JIRAResponse.init, JIRAError.init, parseBody, hne, hj]
  · intro hne hj hx
    simp [JIRAResponse.init, JIRAError.init, parseBody, hne, hj, hx]
  · intro hne hj hx
    simp [JIRAResponse.init, JIRAError.init, parseBody, hne, hj, hx]

/-- Witness for C2: a body starting with `<?xml` whose JSON parse fails gets
an XML tree as its parsed form, in both the response and the error type. -/
theorem C2_witness :
    (("<?xml version='1.0'?><a/>" : String) ≠ "" ∧
     pjNone "<?xml version='1.0'?><a/>" = none ∧
     strTake 5 "<?xml version='1.0'?><a/>" = "<?xml") ∧
    ((JIRAResponse.init pjNone "<?xml version='1.0'?><a/>" 500).json = none ∧
     (JIRAResponse.init pjNone "<?xml version='1.0'?><a/>" 500).xml
       = some (BeautifulStoneSoup "<?xml version='1.0'?><a/>") ∧
     (JIRAError.init pjNone .generic "<?xml version='1.0'?><a/>" (some 500)).json
       = none ∧
     (JIRAError.init pjNone .generic "<?xml version='1.0'?><a/>" (some 500)).xml
       = some (BeautifulStoneSoup "<?xml version='1.0'?><a/>")) :=
  ⟨⟨by decide, rfl, by decide⟩,
   (C2_body_parsing pjNone "<?xml version='1.0'?><a/>" 500).2.2.2.2.2.2.1
     (by decide) rfl (by decide)⟩

/-- Python `s.rstrip('/')`: remove every trailing `'/'` character. -/
def rstripSlash (s : String) : String :=
  String.mk ((s.data.reverse.dropWhile (fun c => c = '/')).reverse)

/-- The `JIRAClient` state set up by `JIRAClient.__init__`: the instance URL
is stored with trailing slashes stripped. -/
structure JIRAClient where
  instance_url : String
  username : String
  password : String
deriving Repr

/-- `JIRAClient.__init__(self, instance_uri, username, password)`. -/
def JIRAClient.init (instance_uri username password : String) : JIRAClient :=
  ⟨rstripSlash instance_uri, username, password⟩

/-- URL resolution at the top of `make_request` (jira.py lines 159-160):
`if url[:4] != "http": url = self.instance_url + url`. -/
def resolve_url (c : JIRAClient) (url : String) : String :=
  if strTake 4 url = "http" then url else c.instance_url ++ url

theorem take4_eq_iff (l : List Char) :
    l.take 4 = ['h', 't', 't', 'p'] ↔
      ∃ rest, l = 'h' :: 't' :: 't' :: 'p' :: rest := by
  constructor
  · intro h
    match l, h with
    | a :: b :: c :: d :: t, h =>
      simp [List.take] at h
      exact ⟨t, by simp [h.1, h.2.1, h.2.2.1, h.2.2.2]⟩
  · rintro ⟨rest, rfl⟩
    rfl

theorem head?_dropWhile {α : Type} (p : α → Bool) (l : List α) :
    ∀ a, (l.dropWhile p).head? = some a → p a = false := by
  induction l with
  | nil => intro a h; simp [List.dropWhile] at h
  | cons x xs ih =>
    intro a h
    by_cases hx : p x
    · rw [List.dropWhile_cons_of_pos hx] at h
      exact ih a h
    · rw [List.dropWhile_cons_of_neg hx] at h
      simp at h
      subst h
      simpa using hx

theorem rstripSlash_decomp (s : String) :
    ∃ k, s.data = (rstripSlash s).data ++ List.replicate k '/' := by
  refine ⟨(s.data.reverse.takeWhile (fun c => c = '/')).length, ?_⟩
  have hsplit := List.takeWhile_append_dropWhile
    (p := fun c => c = '/') (l := s.data.reverse)
  have hs : s.data = s.data.reverse.reverse := by simp
  have htw : s.data.reverse.takeWhile (fun c => c = '/')
      = List.replicate (s.data.reverse.takeWhile (fun c => c = '/')).length '/' := by
    apply List.eq_replicate_length.2
    intro b hb
    have := List.mem_takeWhile_imp hb
    simpa using this
  calc s.data = s.data.reverse.reverse := hs
    _ = (s.data.reverse.takeWhile (fun c => c = '/')
          ++ s.data.reverse.dropWhile (fun c => c = '/')).reverse := by
          rw [hsplit]
    _ = (s.data.reverse.dropWhile (fun c => c = '/')).reverse
          ++ (s.data.reverse.takeWhile (fun c => c = '/')).reverse := by
          rw [List.reverse_append]
    _ = (rstripSlash s).data
          ++ (s.data.reverse.takeWhile (fun c => c = '/')).reverse := rfl
    _ = (rstripSlash s).data
          ++ (List.replicate (s.data.reverse.takeWhile (fun c => c = '/')).length '/').reverse := by
          rw [← htw]
    _ = (rstripSlash s).data
          ++ List.replicate (s.data.reverse.takeWhile (fun c => c = '/')).length '/' := by
          rw [List.reverse_replicate]

theorem rstripSlash_no_trailing (s : String) :
    (rstripSlash s).data.getLast? ≠ some '/' := by
  intro h
  have h' : (s.data.reverse.dropWhile (fun c => c = '/')).head? = some '/' := by
    rw [← List.getLast?_reverse]
    exact h
  have := head?_dropWhile (fun c => c = '/') s.data.reverse '/' h'
  simp at this

/-- C10: `make_request` sends to the instance base URL concatenated with
`url` exactly when `url` does not begin with "http" (the code's test
`url[:4] != "http"`), and leaves an absolute `url` unchanged; the stored
instance base URL is the constructor argument with all trailing `'/'`
characters stripped (so it never ends in `'/'`). -/
theorem C10_url_resolution (instance_uri username password url : String) :
    (strTake 4 url = "http" ↔
      ∃ rest, url.data = 'h' :: 't' :: 't' :: 'p' :: rest) ∧
    (strTake 4 url ≠ "http" →
      resolve_url (JIRAClient.init instance_uri username password) url
        = (JIRAClient.init instance_uri username password).instance_url ++ url) ∧
    (strTake 4 url = "http" →
      resolve_url (JIRAClient.init instance_uri username password) url = url) ∧
    (∃ k, instance_uri.data
      = (JIRAClient.init instance_uri username password).instance_url.data
        ++ List.replicate k '/') ∧
    (JIRAClient.init instance_uri username password).instance_url.data.getLast?
      ≠ some '/' := by
  refine ⟨?_, ?_, ?_, ?_, ?_⟩
  · constructor
    · intro h
      apply (take4_eq_iff url.data).1
      have : (strTake 4 url).data = ("http" : String).data := by rw [h]
      simpa [strTake] using this
    · intro h
      have := (take4_eq_iff url.data).2 h
      unfold strTake
      rw [this]
  · intro h
    simp [resolve_url, h]
  · intro h
    simp [resolve_url, h]
  · exact rstripSlash_decomp instance_uri
  · exact rstripSlash_no_trailing instance_uri

/-- Witness for C10: a relative path is prefixed with the stripped instance
URL; the absolute-URL test matches the "begins with http" reading. -/
theorem C10_witness :
    (strTake 4 "/rest/api/2/project" ≠ "http") ∧
    resolve_url (JIRAClient.init "https://jira.example.com/" "u" "p")
        "/rest/api/2/project"
      = (JIRAClient.init "https://jira.example.com/" "u" "p").instance_url
        ++ "/rest/api/2/project" :=
  ⟨by decide,
   (C10_url_resolution "https://jira.example.com/" "u" "p"
     "/rest/api/2/project").2.1 (by decide)⟩

/-- The underlying HTTP session object produced by `build_session()`,
identified by a token so that reuse of the same object is observable. -/
structure BuiltSession where
  sid : Nat
deriving Repr, DecidableEq

/-- The mutable client attribute state relevant to `get_session`: whether
`self._session` has been assigned (`hasattr(self, '_session')`). -/
structure ClientState where
  session : Option BuiltSession
deriving Repr

/-- `JIRAClient.get_session` (jira.py lines 137-156) as a state transition.
Inputs beyond the state are oracles for the effects performed on the
first call: the fresh session `build_session()` would return and the HTTP
response of the authentication POST. Output: the returned session or the
raised error, the new attribute state, and whether an authentication POST
was issued. `self._session` is assigned before the response check, and the
response check is the Python truthiness `if not res:`. -/
def get_session (pj : JsonParser) (st : ClientState) (fresh : BuiltSession)
    (authRes : HttpResponse) :
    (Except JIRAError BuiltSession) × ClientState × Bool :=
  match st.session with
  | some s => (.ok s, st, false)
  | none =>
    let st' : ClientState := ⟨some fresh⟩
    if authRes.truthy = false then
      if authRes.status_code = 401 then
        (.error (JIRAError.from_response pj .unauthorized authRes), st', true)
      else if 500 ≤ authRes.status_code then
        (.error (JIRAError.init pj .generic "Internal Error" none), st', true)
      else
        (.error (JIRAError.from_response pj .generic authRes), st', true)
    else (.ok fresh, st', true)

/-- Counterexample to C3 as stated: status 304 is not a 2xx status, yet the
first `get_session` call does not fail — `if not res:` tests `requests`
truthiness, which is False only for statuses in [400,600), so a 304
authentication response passes the check and the session is returned. -/
theorem C3_counterexample :
    ((304 : Nat) < 200 ∨ (300 : Nat) ≤ 304) ∧
    (get_session pjNone ⟨none⟩ ⟨0⟩ ⟨"", 304⟩).1 = .ok ⟨0⟩ := by
  constructor
  · decide
  · rfl

/-- C3 (amended): on the first `get_session` call, whenever the
authentication POST returns a response with status in [400,600) (the
statuses on which a `requests` response is falsy), the call fails: with an
Unauthorized error built from the response if the status is 401, with a
generic "Internal Error" (no status attached) if the status is >= 500, and
with a generic error built from the response otherwise; a response with
status outside [400,600) — in particular any 2xx — never fails. -/
theorem C3_amended_first_auth_failure (pj : JsonParser) (fresh : BuiltSession)
    (authRes : HttpResponse) :
    (400 ≤ authRes.status_code → authRes.status_code < 600 →
      (authRes.status_code = 401 →
        ∃ e, (get_session pj ⟨none⟩ fresh authRes).1 = .error e ∧
          e.kind = .unauthorized ∧ e.text = authRes.text ∧
          e.status_code = some 401) ∧
      (authRes.status_code ≠ 401 → 500 ≤ authRes.status_code →
        ∃ e, (get_session pj ⟨none⟩ fresh authRes).1 = .error e ∧
          e.kind = .generic ∧ e.text = "Internal Error" ∧
          e.status_code = none) ∧
      (authRes.status_code ≠ 401 → authRes.status_code < 500 →
        ∃ e, (get_session pj ⟨none⟩ fresh authRes).1 = .error e ∧
          e.kind = .generic ∧ e.text = authRes.text ∧
          e.status_code = some authRes.status_code)) ∧
    ((authRes.status_code < 400 ∨ 600 ≤ authRes.status_code) →
      (get_session pj ⟨none⟩ fresh authRes).1 = .ok fresh) := by
  constructor
  · intro h4 h6
    have hf : authRes.truthy = false := by
      simp [HttpResponse.truthy]
      omega
    refine ⟨?_, ?_, ?_⟩
    · intro h401
      refine ⟨JIRAError.from_response pj .unauthorized authRes, ?_, rfl, rfl, ?_⟩
      · simp [get_session, hf, h401]
      · simp [JIRAError.from_response, JIRAError.init, h401]
    · intro h401 h5
      refine ⟨JIRAError.init pj .generic "Internal Error" none, ?_, rfl, rfl, rfl⟩
      simp [get_session, hf, h401, h5]
    · intro h401 h5
      have h5' : ¬ 500 ≤ authRes.status_code := by omega
      refine ⟨JIRAError.from_response pj .generic authRes, ?_, rfl, rfl, rfl⟩
      simp [get_session, hf, h401, h5']
  · intro h
    have ht : authRes.truthy = true := by
      simp [HttpResponse.truthy]
      omega
    simp [get_session, ht]

/-- Witness for C3 (amended): a 503 authentication response fails with the
generic "Internal Error". -/
theorem C3_amended_witness :
    ((400 : Nat) ≤ 503 ∧ (503 : Nat) < 600 ∧ (503 : Nat) ≠ 401 ∧
      (500 : Nat) ≤ 503) ∧
    ∃ e, (get_session pjNone ⟨none⟩ ⟨0⟩ ⟨"busy", 503⟩).1 = .error e ∧
      e.kind = .generic ∧ e.text = "Internal Error" ∧ e.status_code = none :=
  ⟨by decide,
   ((C3_amended_first_auth_failure pjNone ⟨0⟩ ⟨"busy", 503⟩).1
     (by decide) (by decide)).2.1 (by decide) (by decide)⟩

/-- C7: once `get_session` has succeeded, the returned session is exactly
the one stored in `self._session`, and every later call returns that same
stored session, leaves the state unchanged, and issues no authentication
POST — the stored session is never replaced. -/
theorem C7_session_memoized (pj : JsonParser) (st : ClientState)
    (fresh : BuiltSession) (authRes : HttpResponse) (s : BuiltSession)
    (st' : ClientState) (didAuth : Bool) :
    get_session pj st fresh authRes = (.ok s, st', didAuth) →
    st'.session = some s ∧
    ∀ (pj2 : JsonParser) (fresh2 : BuiltSession) (authRes2 : HttpResponse),
      get_session pj2 st' fresh2 authRes2 = (.ok s, st', false) := by
  intro h
  match hs : st.session with
  | some s0 =>
    rw [get_session, hs] at h
    simp only [Prod.mk.injEq, Except.ok.injEq] at h
    obtain ⟨he, hst, _⟩ := h
    subst he
    subst hst
    constructor
    · exact hs
    · intro pj2 fresh2 authRes2
      rw [get_session, hs]
  | none =>
    rw [get_session, hs] at h
    by_cases hf : authRes.truthy = false
    · exfalso
      rw [if_pos hf] at h
      by_cases h401 : authRes.status_code = 401
      · rw [if_pos h401] at h
        simp at h
      · rw [if_neg h401] at h
        by_cases h5 : 500 ≤ authRes.status_code
        · rw [if_pos h5] at h
          simp at h
        · rw [if_neg h5] at h
          simp at h
    · rw [if_neg hf] at h
      simp only [Prod.mk.injEq, Except.ok.injEq] at h
      obtain ⟨he, hst, _⟩ := h
      subst he
      subst hst
      constructor
      · rfl
      · intro pj2 fresh2 authRes2
        rw [get_session]

/-- Witness for C7: after a successful first call (status 200), a second
call with a different fresh session and a failing auth response still
returns the first session, unchanged state, and no auth POST. -/
theorem C7_witness :
    get_session pjNone ⟨none⟩ ⟨7⟩ ⟨"", 200⟩ = (.ok ⟨7⟩, ⟨some ⟨7⟩⟩, true) ∧
    (⟨some ⟨7⟩⟩ : ClientState).session = some ⟨7⟩ ∧
    get_session pjNone ⟨some ⟨7⟩⟩ ⟨8⟩ ⟨"", 401⟩ = (.ok ⟨7⟩, ⟨some ⟨7⟩⟩, false) := by
  have h := C7_session_memoized pjNone ⟨none⟩ ⟨7⟩ ⟨"", 200⟩ ⟨7⟩ ⟨some ⟨7⟩⟩ true rfl
  exact ⟨rfl, h.1, h.2 pjNone ⟨8⟩ ⟨"", 401⟩⟩

/-- C8: when the first `get_session` call fails, the fresh unauthenticated
session has already been assigned to `self._session` (the assignment
precedes the response check), so every subsequent call returns that stored
session immediately, without re-attempting authentication. -/
theorem C8_failed_auth_still_stores (pj : JsonParser) (fresh : BuiltSession)
    (authRes : HttpResponse) (e : JIRAError) (st' : ClientState)
    (didAuth : Bool) :
    get_session pj ⟨none⟩ fresh authRes = (.error e, st', didAuth) →
    st'.session = some fresh ∧
    ∀ (pj2 : JsonParser) (fresh2 : BuiltSession) (authRes2 : HttpResponse),
      get_session pj2 st' fresh2 authRes2 = (.ok fresh, st', false) := by
  intro h
  rw [get_session] at h
  by_cases hf : authRes.truthy = false
  · rw [if_pos hf] at h
    have hst : st' = ⟨some fresh⟩ := by
      by_cases h401 : authRes.status_code = 401
      · rw [if_pos h401] at h
        simp only [Prod.mk.injEq] at h
        exact h.2.1.symm
      · rw [if_neg h401] at h
        by_cases h5 : 500 ≤ authRes.status_code
        · rw [if_pos h5] at h
          simp only [Prod.mk.injEq] at h
          exact h.2.1.symm
        · rw [if_neg h5] at h
          simp only [Prod.mk.injEq] at h
          exact h.2.1.symm
    subst hst
    constructor
    · rfl
    · intro pj2 fresh2 authRes2
      rw [get_session]
  · rw [if_neg hf] at h
    simp at h

/-- Witness for C8: a failed first authentication (401) stores the fresh
session anyway, and the next call returns it without authenticating. -/
theorem C8_witness :
    get_session pjNone ⟨none⟩ ⟨3⟩ ⟨"denied", 401⟩
      = (.error (JIRAError.from_response pjNone .unauthorized ⟨"denied", 401⟩),
         ⟨some ⟨3⟩⟩, true) ∧
    (⟨some ⟨3⟩⟩ : ClientState).session = some ⟨3⟩ ∧
    get_session pjNone ⟨some ⟨3⟩⟩ ⟨4⟩ ⟨"", 200⟩ = (.ok ⟨3⟩, ⟨some ⟨3⟩⟩, false) := by
  have h := C8_failed_auth_still_stores pjNone ⟨3⟩ ⟨"denied", 401⟩
    (JIRAError.from_response pjNone .unauthorized ⟨"denied", 401⟩)
    ⟨some ⟨3⟩⟩ true rfl
  exact ⟨rfl, h.1, h.2 pjNone ⟨4⟩ ⟨"", 200⟩⟩

/-- Python truthiness of a parsed JSON value (`if not metas:`): None, False,
0, "", empty list and empty dict are falsy. -/
def JsonValue.truthy : JsonValue → Bool
  | .null => false
  | .bool b => b
  | .num n => decide (n ≠ 0)
  | .str s => decide (s ≠ "")
  | .arr [] => false
  | .arr (_ :: _) => true
  | .obj [] => false
  | .obj (_ :: _) => true

/-- Result of `JIRAClient.get_create_meta_for_project`: a returned value
(`None` or a metadata object), a raised `JIRAError`, or a Python exception
(`KeyError`/`TypeError`) that escapes the method — the `try` block only
guards the indexing `metas["projects"][0]` and only catches `IndexError`. -/
inductive MetaResult where
  | noResult
  | meta (value : JsonValue)
  | jiraError (message : String)
  | uncaughtError
deriving Repr

/-- `JIRAClient.get_create_meta_for_project` (jira.py lines 104-119) as a
function of `response.json` from `get_create_meta` (`none` models a Python
`None` attribute). An absent parsed body or a falsy one returns None; then
`len(metas["projects"])` is evaluated outside any exception handler, so a
missing "projects" key raises KeyError and a non-dict body or an unsized
value raises TypeError (modelled as `uncaughtError`); a length above one
raises `JIRAError("More than one project found.")`; otherwise
`metas["projects"][0]` is returned, with `IndexError` caught and mapped to
None. Python `len`/indexing also operate on strings (one-character string)
and dicts (integer key 0 is absent in a JSON-derived dict: KeyError). -/
def get_create_meta_for_project (metas : Option JsonValue) : MetaResult :=
  match metas with
  | none => .noResult
  | some m =>
    if m.truthy = false then .noResult
    else
      match m with
      | .obj fs =>
        match List.lookup "projects" fs with
        | none => .uncaughtError
        | some (.arr ps) =>
          if 1 < ps.length then .jiraError "More than one project found."
          else
            match ps with
            | [] => .noResult
            | q :: _ => .meta q
        | some (.str s) =>
          if 1 < s.data.length then .jiraError "More than one project found."
          else
            match s.data with
            | [] => .noResult
            | ch :: _ => .meta (.str (String.mk [ch]))
        | some (.obj gs) =>
          if 1 < gs.length then .jiraError "More than one project found."
          else .uncaughtError
        | some _ => .uncaughtError
      | _ => .uncaughtError

/-- Counterexample discharging part of C4: a non-empty parsed body with no
"projects" key does not return "no result" — the KeyError raised by
`metas["projects"]` escapes the method uncaught. -/
theorem C4_counterexample :
    get_create_meta_for_project (some (.obj [("foo", .num 1)]))
      = .uncaughtError ∧
    get_create_meta_for_project (some (.obj [("foo", .num 1)]))
      ≠ .noResult := by
  constructor
  · rfl
  · intro h
    have h' : MetaResult.uncaughtError = MetaResult.noResult := h
    exact MetaResult.noConfusion h'

theorem obj_truthy {fs : List (String × JsonValue)} (h : fs ≠ []) :
    (JsonValue.obj fs).truthy = true := by
  cases fs with
  | nil => exact absurd rfl h
  | cons a t => rfl

/-- C4 (amended): an empty or absent parsed body returns no result; a
non-empty body without a "projects" key fails with an uncaught Python
KeyError (not a JIRAError and not "no result"); a project list with more
than one entry raises the generic error "More than one project found.";
exactly one entry returns that entry; a present but empty list returns no
result. -/
theorem C4_amended_meta_extraction :
    get_create_meta_for_project none = .noResult ∧
    (∀ m : JsonValue, m.truthy = false →
      get_create_meta_for_project (some m) = .noResult) ∧
    (∀ fs : List (String × JsonValue), fs ≠ [] →
      List.lookup "projects" fs = none →
      get_create_meta_for_project (some (.obj fs)) = .uncaughtError) ∧
    (∀ (fs : List (String × JsonValue)) (ps : List JsonValue), fs ≠ [] →
      List.lookup "projects" fs = some (.arr ps) →
      (1 < ps.length →
        get_create_meta_for_project (some (.obj fs))
          = .jiraError "More than one project found.") ∧
      (∀ q, ps = [q] →
        get_create_meta_for_project (some (.obj fs)) = .meta q) ∧
      (ps = [] →
        get_create_meta_for_project (some (.obj fs)) = .noResult)) := by
  refine ⟨rfl, ?_, ?_, ?_⟩
  · intro m hm
    simp [get_create_meta_for_project, hm]
  · intro fs hfs hl
    have ht : (JsonValue.obj fs).truthy = true := obj_truthy hfs
    simp [get_create_meta_for_project, ht, hl]
  · intro fs ps hfs hl
    have ht : (JsonValue.obj fs).truthy = true := obj_truthy hfs
    refine ⟨?_, ?_, ?_⟩
    · intro hlen
      simp [get_create_meta_for_project, ht, hl, hlen]
    · intro q hq
      subst hq
      simp [get_create_meta_for_project, ht, hl]
    · intro hq
      subst hq
      simp [get_create_meta_for_project, ht, hl]

/-- Witness for C4 (amended): a body with exactly one project returns that
project's metadata object. -/
theorem C4_witness :
    (([("projects", JsonValue.arr [.str "P1"])]
        : List (String × JsonValue)) ≠ [] ∧
     List.lookup "projects" [("projects", JsonValue.arr [.str "P1"])]
       = some (JsonValue.arr [.str "P1"])) ∧
    get_create_meta_for_project
        (some (.obj [("projects", JsonValue.arr [.str "P1"])]))
      = .meta (.str "P1") :=
  ⟨⟨List.cons_ne_nil _ _, rfl⟩,
   (C4_amended_meta_extraction.2.2.2 [("projects", JsonValue.arr [.str "P1"])]
     [.str "P1"] (List.cons_ne_nil _ _) rfl).2.1 (.str "P1") rfl⟩

/-- `CACHE_KEY = "SENTRY-JIRA-%s-%s"` applied to `(full_url,
self.instance_url)` (jira.py lines 15 and 197): a deterministic function of
the target URL and the instance base URL. -/
def CACHE_KEY (full_url instance_url : String) : String :=
  "SENTRY-JIRA-" ++ full_url ++ "-" ++ instance_url

/-- The external shared cache store (`sentry.utils.cache.cache`): entries of
key, stored `JIRAResponse` and absolute expiry time. -/
def CacheStore : Type := List (String × JIRAResponse × Nat)

/-- `cache.get(key)` at time `now`: the stored value while `now` is within
its time-to-live window, `None` otherwise. -/
def cache_get (now : Nat) (c : CacheStore) (key : String) :
    Option JIRAResponse :=
  match c.find? (fun e => e.1 == key) with
  | some (_, v, expiry) => if now < expiry then some v else none
  | none => none

/-- `cache.set(key, value, ttl)` at time `now`: store `value` under `key`
expiring at `now + ttl`, replacing any previous entry for `key`. -/
def cache_set (now : Nat) (c : CacheStore) (key : String) (v : JIRAResponse)
    (ttl : Nat) : CacheStore :=
  (key, v, now + ttl) :: c.filter (fun e => e.1 != key)

/-- `JIRAClient.get_cached(full_url)` (jira.py lines 191-202) at time `now`.
`fetch` is the oracle for what `self.make_request('get', full_url)` yields
on this call. A stored `JIRAResponse` is always truthy (the class defines no
`__nonzero__`/`__len__`), and `cache.get` yields falsy `None` on a miss, so
`if not cached_result:` is exactly the miss test. Output: the returned
response (or propagated error), the new cache contents, and how many
underlying HTTP requests were issued. -/
def get_cached (fetch : Except JIRAError JIRAResponse) (instance_url : String)
    (now : Nat) (c : CacheStore) (full_url : String) :
    (Except JIRAError JIRAResponse) × CacheStore × Nat :=
  match cache_get now c (CACHE_KEY full_url instance_url) with
  | some r => (.ok r, c, 0)
  | none =>
    match fetch with
    | .error e => (.error e, c, 1)
    | .ok r =>
        (.ok r, cache_set now c (CACHE_KEY full_url instance_url) r 60, 1)

theorem cache_get_after_set (t now : Nat) (c : CacheStore) (key : String)
    (r : JIRAResponse) :
    cache_get t (cache_set now c key r 60) key
      = if t < now + 60 then some r else none := by
  unfold cache_get cache_set
  rw [List.find?_cons_of_pos _ (by simp)]

/-- C5: `get_cached` computes its key deterministically from the URL and the
instance base URL (`CACHE_KEY` is a function of exactly those two). On a
miss it performs exactly one dispatcher GET and stores the returned
`JIRAResponse` so that it is visible until, and only until, 60 seconds
after the miss; on a hit it returns the stored response with no request.
Hence a second call within 60 seconds returns the same response with zero
requests, and a call at or after expiry performs a new request. -/
theorem C5_get_cached_ttl (fetch fetch2 : Except JIRAError JIRAResponse)
    (inst : String) (now now2 : Nat) (c : CacheStore) (url : String)
    (r : JIRAResponse) :
    (cache_get now c (CACHE_KEY url inst) = some r →
      get_cached fetch inst now c url = (.ok r, c, 0)) ∧
    (cache_get now c (CACHE_KEY url inst) = none → fetch = .ok r →
      (get_cached fetch inst now c url).1 = .ok r ∧
      (get_cached fetch inst now c url).2.2 = 1 ∧
      (∀ t, t < now + 60 →
        cache_get t (get_cached fetch inst now c url).2.1 (CACHE_KEY url inst)
          = some r) ∧
      (∀ t, now + 60 ≤ t →
        cache_get t (get_cached fetch inst now c url).2.1 (CACHE_KEY url inst)
          = none) ∧
      (now2 < now + 60 →
        get_cached fetch2 inst now2 (get_cached fetch inst now c url).2.1 url
          = (.ok r, (get_cached fetch inst now c url).2.1, 0)) ∧
      (now + 60 ≤ now2 →
        (get_cached fetch2 inst now2 (get_cached fetch inst now c url).2.1
          url).2.2 = 1)) := by
  constructor
  · intro h
    simp [get_cached, h]
  · intro hmiss hf
    subst hf
    have hrun : get_cached (.ok r) inst now c url
        = (.ok r, cache_set now c (CACHE_KEY url inst) r 60, 1) := by
      simp [get_cached, hmiss]
    rw [hrun]
    refine ⟨rfl, rfl, ?_, ?_, ?_, ?_⟩
    · intro t ht
      rw [cache_get_after_set, if_pos ht]
    · intro t ht
      rw [cache_get_after_set, if_neg (by omega)]
    · intro h2
      have hhit : cache_get now2 (cache_set now c (CACHE_KEY url inst) r 60)
          (CACHE_KEY url inst) = some r := by
        rw [cache_get_after_set, if_pos h2]
      simp [get_cached, hhit]
    · intro h2
      have hmiss2 : cache_get now2 (cache_set now c (CACHE_KEY url inst) r 60)
          (CACHE_KEY url inst) = none := by
        rw [cache_get_after_set, if_neg (by omega)]
      cases fetch2 with
      | error e => simp [get_cached, hmiss2]
      | ok r2 => simp [get_cached, hmiss2]

/-- Witness for C5: starting from an empty cache at time 0, the first call
issues one request; a second call at time 30 returns the stored response
with zero requests; a third call at time 60 issues a request again. -/
theorem C5_witness :
    (cache_get 0 [] (CACHE_KEY "/rest/api/2/project" "https://j") = none ∧
      (Except.ok (⟨"[]", none, none, 200⟩ : JIRAResponse)
        : Except JIRAError JIRAResponse)
        = .ok ⟨"[]", none, none, 200⟩ ∧
      (30 : Nat) < 0 + 60 ∧ (0 : Nat) + 60 ≤ 60) ∧
    ((get_cached (.ok ⟨"[]", none, none, 200⟩) "https://j" 0 []
        "/rest/api/2/project").2.2 = 1 ∧
      get_cached (.ok ⟨"[]", none, none, 200⟩) "https://j" 30
          (get_cached (.ok ⟨"[]", none, none, 200⟩) "https://j" 0 []
            "/rest/api/2/project").2.1 "/rest/api/2/project"
        = (.ok ⟨"[]", none, none, 200⟩,
           (get_cached (.ok ⟨"[]", none, none, 200⟩) "https://j" 0 []
             "/rest/api/2/project").2.1, 0) ∧
      (get_cached (.ok ⟨"[]", none, none, 200⟩) "https://j" 60
          (get_cached (.ok ⟨"[]", none, none, 200⟩) "https://j" 0 []
            "/rest/api/2/project").2.1 "/rest/api/2/project").2.2 = 1) := by
  have h := (C5_get_cached_ttl (.ok ⟨"[]", none, none, 200⟩)
    (.ok ⟨"[]", none, none, 200⟩) "https://j" 0 30 [] "/rest/api/2/project"
    ⟨"[]", none, none, 200⟩).2 rfl rfl
  have h60 := (C5_get_cached_ttl (.ok ⟨"[]", none, none, 200⟩)
    (.ok ⟨"[]", none, none, 200⟩) "https://j" 0 60 [] "/rest/api/2/project"
    ⟨"[]", none, none, 200⟩).2 rfl rfl
  exact ⟨⟨rfl, rfl, by omega, by omega⟩,
    h.2.1, h.2.2.2.2.1 (by omega), h60.2.2.2.2.2 (by omega)⟩
